import Mathlib

/-!
Verification of the ml-pipeline repository against its specification.

This file gives a shallow embedding, in Lean 4, of the parts of the code
that the specification's claims are about:

* `src/data/validation.py`   (class `DataValidation`)
* `src/data/preprocessing.py` (class `DataPreprocessing`)
* `src/models/train.py`      (class `ModelTrainer`)
* `src/models/evaluate.py`   (class `ModelEvaluator`)
* `src/api/routes.py`        (the `/predict/batch` route)

Conventions of the embedding:

* A pandas `DataFrame` is a record of a row count and a list of named
  columns; a cell is `Option` of a value, `none` standing for a null
  (`None`/`NaN`).  Numeric values are exact rationals `ℚ`.
* Python `float` arithmetic appearing in the code only ever feeds
  comparisons against thresholds; it is embedded as `PFloat`
  (a rational, `nan`, or `inf`) with the IEEE comparison rules the code
  relies on (`nan > t` is false, `inf > t` is true).
* Mutable attributes (`self.validation_report`, `self.scaler`,
  `self.label_encoders`, `self.model`, ...) become explicit state that is
  passed in and returned.
* Python exceptions become `Except String` results.
* In-place DataFrame mutation is modelled with an explicit heap of
  DataFrames (`Heap`): `df.copy()` allocates a fresh reference,
  `df[cols] = ...` writes through the reference in hand.  This is what
  makes the "never mutates its argument" claims meaningful statements.
* Library calls (`sklearn`, `numpy`, `joblib`) are embedded by their
  documented semantics on the inputs the code hands them.
-/

namespace MLPipeline

/-! ## Generic helpers: strings, sorting, association lists (Python dicts) -/

/-- True when `needle` occurs at the very front of `hay`. -/
def startsWithChars : List Char → List Char → Bool
  | [], _ => true
  | _ :: _, [] => false
  | a :: as, b :: bs => a == b && startsWithChars as bs

/-- True when `needle` occurs somewhere inside `hay`
(Python `needle in hay` on strings). -/
def hasSubChars (needle : List Char) : List Char → Bool
  | [] => needle.isEmpty
  | c :: rest => startsWithChars needle (c :: rest) || hasSubChars needle rest

/-- Python substring test `needle in hay`. -/
def strContains (hay needle : String) : Bool :=
  hasSubChars needle.toList hay.toList

/-- Insert into a list sorted by `le`. -/
def insertByLe (le : α → α → Bool) (a : α) : List α → List α
  | [] => [a]
  | b :: bs => if le a b then a :: b :: bs else b :: insertByLe le a bs

/-- Insertion sort by `le`. -/
def sortByLe (le : α → α → Bool) : List α → List α
  | [] => []
  | a :: as => insertByLe le a (sortByLe le as)

/-- `numpy.unique` / `sorted(set(...))` on integers: sorted distinct values. -/
def uniqueSortedInt (l : List Int) : List Int :=
  sortByLe (fun a b => decide (a ≤ b)) l.eraseDups

/-- `sorted(set(...))` on strings (the classes of a fitted `LabelEncoder`). -/
def uniqueSortedStr (l : List String) : List String :=
  sortByLe (fun a b => decide (a ≤ b)) l.eraseDups

/-- Lookup in a Python dict modelled as an association list
(first binding wins; construction below keeps keys unique). -/
def pyGet (d : List (String × β)) (k : String) : Option β :=
  (d.find? (fun kv => kv.1 == k)).map (fun kv => kv.2)

/-- Python `d[k] = v` on a dict: replace the binding in place if the key is
present, otherwise append it. -/
def pyUpsert (d : List (String × β)) (k : String) (v : β) : List (String × β) :=
  match d with
  | [] => [(k, v)]
  | kv :: rest =>
      if kv.1 == k then (k, v) :: rest else kv :: pyUpsert rest k v

/-- Python `{**a, **b}`: start from `a` and insert every binding of `b`. -/
def pyDictMerge (a b : List (String × β)) : List (String × β) :=
  b.foldl (fun acc kv => pyUpsert acc kv.1 kv.2) a

/-- Python `str(list_of_strings)`, e.g. on the model-registry keys. -/
def pyStrList (l : List String) : String :=
  let q := String.singleton (Char.ofNat 39)
  "[" ++ String.intercalate ", " (l.map (fun s => q ++ s ++ q)) ++ "]"

/-! ## Pandas floats -/

/-- The float values the validation code can produce: an exact rational,
`NaN` (from `0/0` on an empty frame) or `inf`. -/
inductive PFloat where
  | nan : PFloat
  | inf : PFloat
  | val (q : ℚ) : PFloat
deriving DecidableEq, Repr

/-- IEEE comparison `x > t` for a threshold `t`:
`nan` compares false, `inf` compares true. -/
def PFloat.gtQ : PFloat → ℚ → Bool
  | .nan, _ => false
  | .inf, _ => true
  | .val q, t => decide (t < q)

/-- `numerator / denominator` as pandas computes a missing-value ratio:
`0/0 = NaN`, `k/0 = inf` for `k > 0`, exact otherwise. -/
def ratioNat (num den : Nat) : PFloat :=
  if den = 0 then (if num = 0 then .nan else .inf)
  else .val ((num : ℚ) / (den : ℚ))

/-! ## DataFrames -/

/-- The values of one column: numeric (`int64`/`float64`) or `object`
(strings); `none` is a null cell. -/
inductive ColData where
  | numeric (vals : List (Option ℚ)) : ColData
  | object (vals : List (Option String)) : ColData
deriving DecidableEq, Repr

/-- Number of cells in the column. -/
def ColData.length : ColData → Nat
  | .numeric vs => vs.length
  | .object vs => vs.length

/-- Number of null cells (`isnull().sum()` for one column). -/
def ColData.numNulls : ColData → Nat
  | .numeric vs => (vs.filter (fun v => v.isNone)).length
  | .object vs => (vs.filter (fun v => v.isNone)).length

/-- A named column together with its pandas dtype string
(e.g. "int64", "float64", "object"). -/
structure Column where
  name : String
  dtype : String
  data : ColData
deriving DecidableEq, Repr

/-- A DataFrame: a row count (`len(df)`) and named columns. -/
structure DF where
  nrows : Nat
  cols : List Column
deriving DecidableEq, Repr

/-- Well-formedness, guaranteed by pandas: every column holds exactly
`nrows` cells. -/
def DF.wf (d : DF) : Prop :=
  ∀ c ∈ d.cols, c.data.length = d.nrows

instance (d : DF) : Decidable d.wf := by
  unfold DF.wf; infer_instance

/-- `col in df.columns`. -/
def DF.hasCol (d : DF) (name : String) : Bool :=
  d.cols.any (fun c => c.name == name)

/-- `df[name]` as an optional column. -/
def DF.findCol (d : DF) (name : String) : Option Column :=
  d.cols.find? (fun c => c.name == name)

/-! ## `src/data/validation.py` — class `DataValidation`

`self.validation_report` is a dict that individual checks write into; a key
that was never written is absent.  It is embedded as a record of three
optional entries.
-/

/-- The mutable `self.validation_report` dict. -/
structure ValReportState where
  missing_columns : Option (List String)
  high_missing_columns : Option (List (String × PFloat))
  type_mismatches : Option (List (String × String × String))
deriving DecidableEq, Repr

/-- A fresh `DataValidation` instance: empty report. -/
def ValReportState.init : ValReportState :=
  { missing_columns := none, high_missing_columns := none, type_mismatches := none }

/-- `DataValidation.validate_columns`: records the required columns absent
from the frame, and succeeds when there are none. -/
def validate_columns (s : ValReportState) (data : DF) (required_columns : List String) :
    Bool × ValReportState :=
  let missing := required_columns.filter (fun col => ¬ data.hasCol col)
  if missing.isEmpty then
    (true, { s with missing_columns := some [] })
  else
    (false, { s with missing_columns := some missing })

/-- `DataValidation.validate_missing_values`: per column,
`ratio = null_count / len(data)`; fails when some ratio exceeds the
threshold and records those columns with their ratios. -/
def validate_missing_values (s : ValReportState) (data : DF) (threshold : ℚ) :
    Bool × ValReportState :=
  let missing_ratios := data.cols.map (fun c => (c.name, ratioNat c.data.numNulls data.nrows))
  let problematic := missing_ratios.filter (fun p => p.2.gtQ threshold)
  if problematic.isEmpty then
    (true, { s with high_missing_columns := some [] })
  else
    (false, { s with high_missing_columns := some problematic })

/-- `DataValidation.validate_data_types`: a column present in the frame
mismatches when the expected type is not a substring of its actual dtype;
absent columns are skipped. -/
def validate_data_types (s : ValReportState) (data : DF)
    (expected_types : List (String × String)) : Bool × ValReportState :=
  let type_mismatches := expected_types.filterMap (fun p =>
    match data.findCol p.1 with
    | none => none
    | some c =>
        if strContains c.dtype p.2 then none
        else some (p.1, p.2, c.dtype))
  if type_mismatches.isEmpty then
    (true, { s with type_mismatches := some [] })
  else
    (false, { s with type_mismatches := some type_mismatches })

/-- The record returned by `validate_all` (its `details` alias the
validator's report dict). -/
structure ValAllResult where
  columns_valid : Bool
  missing_valid : Bool
  types_valid : Bool
  overall_valid : Bool
  details : ValReportState
deriving DecidableEq, Repr

/-- Python truthiness of an optional list argument
(`if required_columns:`): false for `None` and for `[]`. -/
def listTruthy (o : Option (List α)) : Bool :=
  match o with
  | none => false
  | some l => ¬ l.isEmpty

/-- `DataValidation.validate_all`: runs the column check when
`required_columns` is truthy, always runs the missing-value check, runs the
type check when `expected_types` is truthy; `overall_valid` is the
conjunction of the three flags, and `details` is the validator's report
dict after the calls.  Returns the result together with the updated
validator state. -/
def validate_all (s : ValReportState) (data : DF)
    (required_columns : Option (List String))
    (expected_types : Option (List (String × String)))
    (missing_threshold : ℚ) : ValAllResult × ValReportState :=
  let cv :=
    if listTruthy required_columns then
      validate_columns s data (required_columns.getD [])
    else (true, s)
  let mv := validate_missing_values cv.2 data missing_threshold
  let tv :=
    if listTruthy expected_types then
      validate_data_types mv.2 data (expected_types.getD [])
    else (true, mv.2)
  let overall := cv.1 && mv.1 && tv.1
  ({ columns_valid := cv.1, missing_valid := mv.1, types_valid := tv.1,
     overall_valid := overall, details := tv.2 }, tv.2)

/-! ## `src/data/preprocessing.py` — class `DataPreprocessing`

The methods mutate DataFrames in place after taking a `data.copy()`; to
state what they do and do not mutate, frames live on an explicit heap and
the methods manipulate references into it.  The value-level semantics of
each method is factored out as a `_val` function.

The embedding carries a column's type twice: as the pandas dtype string
(matched by `validate_data_types`) and structurally as the `ColData`
constructor (used by `select_dtypes`); pandas keeps the two consistent.
-/

/-- A heap of DataFrames; a reference is an index into it. -/
abbrev Heap := List DF

/-- Allocate a fresh frame (`df.copy()`, or any expression building a new
frame); returns the extended heap and the new reference. -/
def Heap.alloc (h : Heap) (d : DF) : Heap × Nat := (h ++ [d], h.length)

/-- Dereference. -/
def Heap.read (h : Heap) (r : Nat) : DF := (h[r]?).getD ⟨0, []⟩

/-- In-place update through a reference (`df[cols] = ...`). -/
def Heap.write (h : Heap) (r : Nat) (d : DF) : Heap := h.set r d

/-- Is the column numeric, i.e. selected by
`select_dtypes(include=[np.number])`? -/
def Column.isNumeric (c : Column) : Bool :=
  match c.data with
  | .numeric _ => true
  | .object _ => false

/-- Is the column an `object` column
(`select_dtypes(include=['object'])`)? -/
def Column.isObject (c : Column) : Bool :=
  match c.data with
  | .numeric _ => false
  | .object _ => true

/-- Names of the `object` columns of a frame. -/
def DF.objectCols (d : DF) : List String :=
  (d.cols.filter (fun c => c.isObject)).map (fun c => c.name)

/-- Names of the numeric columns of a frame. -/
def DF.numericCols (d : DF) : List String :=
  (d.cols.filter (fun c => c.isNumeric)).map (fun c => c.name)

/-- `df[names]`: the sub-frame of the listed columns. -/
def DF.selectCols (d : DF) (names : List String) : DF :=
  { d with cols := names.filterMap (fun n => d.findCol n) }

/-- `SimpleImputer(strategy='mean').fit_transform` on one numeric column:
nulls become the mean of the observed values.  (sklearn drops a column
with no observed value at all; such a column is returned unchanged here —
the pipeline never produces that case and no theorem below depends on
it.) -/
def imputeMeanVals (vs : List (Option ℚ)) : List (Option ℚ) :=
  let obs := vs.filterMap id
  if obs.isEmpty then vs
  else
    let m := obs.sum / (obs.length : ℚ)
    vs.map (fun v => some (v.getD m))

/-- Occurrence count of `a` in `l`. -/
def countOcc (l : List String) (a : String) : Nat :=
  (l.filter (fun b => b == a)).length

/-- The value `SimpleImputer(strategy='most_frequent')` fills with: the
most frequent observed value, ties broken towards the smallest. -/
def mostFrequent (vs : List String) : Option String :=
  (uniqueSortedStr vs).foldl
    (fun best s =>
      match best with
      | none => some s
      | some b => if countOcc vs b < countOcc vs s then some s else best)
    none

/-- Most-frequent imputation of one `object` column. -/
def imputeMostFrequentVals (vs : List (Option String)) : List (Option String) :=
  let obs := vs.filterMap id
  match mostFrequent obs with
  | none => vs
  | some m => vs.map (fun v => some (v.getD m))

/-- `data[numerical_cols] = SimpleImputer('mean').fit_transform(...)`. -/
def imputeNumericDF (d : DF) : DF :=
  { d with cols := d.cols.map (fun c =>
      match c.data with
      | .numeric vs => { c with data := .numeric (imputeMeanVals vs) }
      | .object _ => c) }

/-- `data[categorical_cols] = SimpleImputer('most_frequent').fit_transform(...)`. -/
def imputeCategoricalDF (d : DF) : DF :=
  { d with cols := d.cols.map (fun c =>
      match c.data with
      | .object vs => { c with data := .object (imputeMostFrequentVals vs) }
      | .numeric _ => c) }

/-- `data.replace({None: np.nan})`: Python `None` and `NaN` are both the
embedded `none`, so the fresh frame this builds carries the same value. -/
def replace_none_with_nan (d : DF) : DF := d

/-- Value-level semantics of `DataPreprocessing.handle_missing_values`
with the default strategies (`mean` / `most_frequent`). -/
def handle_missing_values_val (d : DF) : DF :=
  imputeCategoricalDF (imputeNumericDF (replace_none_with_nan d))

/-- `DataPreprocessing.handle_missing_values`, with the aliasing of the
source: `data = data.copy()` and `data = data.replace({None: np.nan})`
allocate fresh frames, the two imputing assignments write through the
local reference.  Returns the heap and the reference to the result. -/
def handle_missing_values_h (h : Heap) (r : Nat) : Heap × Nat :=
  let a1 := Heap.alloc h (Heap.read h r)
  let a2 := Heap.alloc a1.1 (replace_none_with_nan (Heap.read a1.1 a1.2))
  let h3 := Heap.write a2.1 a2.2 (imputeNumericDF (Heap.read a2.1 a2.2))
  let h4 := Heap.write h3 a2.2 (imputeCategoricalDF (Heap.read h3 a2.2))
  (h4, a2.2)

/-- `df[col].astype(str)`: stringify a column; a null prints as "nan". -/
def ColData.asStrings : ColData → List String
  | .object vs => vs.map (fun v => v.getD "nan")
  | .numeric vs => vs.map (fun v =>
      match v with
      | some q => toString q
      | none => "nan")

/-- `LabelEncoder().fit_transform(col.astype(str))`: the fitted classes
are the sorted distinct strings and every value becomes the index of its
class.  Returns the encoded (now integer) column data and the classes. -/
def labelEncodeCol (cd : ColData) : ColData × List String :=
  let strs := cd.asStrings
  let classes := uniqueSortedStr strs
  (.numeric (strs.map (fun s => some ((classes.findIdx (fun c => c == s) : Nat) : ℚ))),
   classes)

/-- `data[col] = LabelEncoder().fit_transform(data[col].astype(str))`:
replace one column by its integer codes. -/
def encodeColInDF (d : DF) (col : String) : DF :=
  { d with cols := d.cols.map (fun c =>
      if c.name == col then
        { c with dtype := "int64", data := (labelEncodeCol c.data).1 }
      else c) }

/-- `self.label_encoders`: column name ↦ fitted classes. -/
abbrev Encoders := List (String × List String)

/-- Value-level semantics of `DataPreprocessing.encode_categorical`:
encode each listed column present in the frame (defaulting to the object
columns) and record its fitted encoder; returns the new frame and the
updated `self.label_encoders`. -/
def encode_categorical_val (enc : Encoders) (d : DF) (columns : Option (List String)) :
    DF × Encoders :=
  let cols :=
    match columns with
    | some cs => cs
    | none => d.objectCols
  cols.foldl
    (fun acc col =>
      match acc.1.findCol col with
      | none => acc
      | some c => (encodeColInDF acc.1 col, pyUpsert acc.2 col (labelEncodeCol c.data).2))
    (d, enc)

/-- One iteration of the loop in `encode_categorical`, acting on the
frame behind the fixed local reference `r1`: encode the column in place
and record its encoder, skipping names absent from the frame. -/
def encodeStepH (r1 : Nat) (acc : Heap × Encoders) (col : String) :
    Heap × Encoders :=
  let d := Heap.read acc.1 r1
  match d.findCol col with
  | none => acc
  | some c =>
      (Heap.write acc.1 r1 (encodeColInDF d col),
       pyUpsert acc.2 col (labelEncodeCol c.data).2)

/-- `DataPreprocessing.encode_categorical` with the aliasing of the
source: one `data.copy()` up front, then per-column in-place writes. -/
def encode_categorical_h (h : Heap) (r : Nat) (enc : Encoders)
    (columns : Option (List String)) : Heap × Nat × Encoders :=
  let a1 := Heap.alloc h (Heap.read h r)
  let cols :=
    match columns with
    | some cs => cs
    | none => (Heap.read a1.1 a1.2).objectCols
  let res := cols.foldl (encodeStepH a1.2) (a1.1, enc)
  (res.1, a1.2, res.2)

/-- Mean of a numeric column as `StandardScaler.fit` computes it.  The
pipeline scales only imputed, null-free frames; a null cell is read as 0
(numpy would propagate `NaN`, which `ℚ` does not have). -/
def colMean (vs : List (Option ℚ)) : ℚ :=
  (vs.map (fun v => v.getD 0)).sum / (vs.length : ℚ)

/-- Biased (`ddof = 0`) variance, `StandardScaler`'s `var_`. -/
def colVar (vs : List (Option ℚ)) : ℚ :=
  (vs.map (fun v => (v.getD 0 - colMean vs) ^ 2)).sum / (vs.length : ℚ)

/-- The fitted state of a `StandardScaler`: `mean_` and `var_` per fitted
column. -/
structure ScalerFit where
  stats : List (String × ℚ × ℚ)
deriving DecidableEq, Repr

/-- `StandardScaler.fit` on the numeric columns of a frame. -/
def scalerFit (d : DF) : ScalerFit :=
  { stats := d.cols.filterMap (fun c =>
      match c.data with
      | .numeric vs => some (c.name, colMean vs, colVar vs)
      | .object _ => none) }

/-- The divisor of the standardising transform.  sklearn stores
`scale_ = sqrt(var_)`, mapping zero variance to 1; a square root is
irrational in general, so this exact-rational embedding divides by `var_`
under the same zero guard.  No theorem below depends on the magnitude of
a scaled value, only on which state the transform is computed from. -/
def scaleDivisor (v : ℚ) : ℚ := if v = 0 then 1 else v

/-- `StandardScaler.transform`: an affine map per fitted column, computed
from the fitted state alone — it never refits. -/
def scalerTransform (f : ScalerFit) (d : DF) : DF :=
  { d with cols := d.cols.map (fun c =>
      match pyGet f.stats c.name, c.data with
      | some mv, .numeric vs =>
          { c with data := .numeric (vs.map (fun x =>
              some ((x.getD 0 - mv.1) / scaleDivisor mv.2))) }
      | _, _ => c) }

/-- Value-level semantics of `DataPreprocessing.scale_features`:
`data[columns] = self.scaler.fit_transform(data[columns])` — this method
refits `self.scaler`; the resulting scaler state is returned. -/
def scale_features_val (scaler : Option ScalerFit) (d : DF)
    (columns : Option (List String)) : DF × Option ScalerFit :=
  let cols :=
    match columns with
    | some cs => cs
    | none => d.numericCols
  if cols.isEmpty then (d, scaler)
  else
    let f := scalerFit (d.selectCols cols)
    (scalerTransform f d, some f)

/-- `DataPreprocessing.scale_features` with the aliasing of the source:
one `data.copy()`, then an in-place write of the scaled columns. -/
def scale_features_h (h : Heap) (r : Nat) (scaler : Option ScalerFit)
    (columns : Option (List String)) : Heap × Nat × Option ScalerFit :=
  let a1 := Heap.alloc h (Heap.read h r)
  let d := Heap.read a1.1 a1.2
  let cols :=
    match columns with
    | some cs => cs
    | none => d.numericCols
  if cols.isEmpty then (a1.1, a1.2, scaler)
  else
    let f := scalerFit (d.selectCols cols)
    (Heap.write a1.1 a1.2 (scalerTransform f d), a1.2, some f)

/-- Rows at the given indices (an out-of-range index yields a null cell;
the callers only pass valid indices). -/
def ColData.selectRows : ColData → List Nat → ColData
  | .numeric vs, idxs => .numeric (idxs.map (fun i => (vs[i]?).getD none))
  | .object vs, idxs => .object (idxs.map (fun i => (vs[i]?).getD none))

/-- `df.iloc[idxs]`. -/
def DF.selectRows (d : DF) (idxs : List Nat) : DF :=
  { nrows := idxs.length,
    cols := d.cols.map (fun c => { c with data := c.data.selectRows idxs }) }

/-- `DataPreprocessing.split_data` /
`train_test_split(X, y, test_size, random_state)`: the seeded shuffle
yields a permutation of the row indices; the first `ceil(test_size * n)`
shuffled indices form the test partition and the rest the train
partition.  The permutation the fixed seed produces is passed explicitly
(`perm`); the theorems below hold for an arbitrary permutation, hence in
particular for the one `random_state = 42` draws. -/
def split_data (data : DF) (target_column : String) (test_size : ℚ)
    (perm : List Nat) : Except String (DF × DF × Column × Column) :=
  match data.findCol target_column with
  | none => .error ("KeyError: " ++ target_column)
  | some ycol =>
      let X : DF := { data with cols := data.cols.filter (fun c => ¬ c.name == target_column) }
      let nTest := (⌈test_size * (data.nrows : ℚ)⌉).toNat
      let testIdx := perm.take nTest
      let trainIdx := perm.drop nTest
      .ok (X.selectRows trainIdx, X.selectRows testIdx,
           { ycol with data := ycol.data.selectRows trainIdx },
           { ycol with data := ycol.data.selectRows testIdx })

/-- The preprocessor's persistent state: `self.scaler` (fitted or not) and
`self.label_encoders`. -/
structure Preprocessor where
  scaler : Option ScalerFit
  label_encoders : Encoders
deriving DecidableEq, Repr

/-- What `preprocess_pipeline` returns, plus one observation point:
`scalerAfterTrainFit` records `self.scaler`'s fitted state immediately
after the step-5 fit on the train partition, before the test partition is
transformed (the state the invariant theorems compare against). -/
structure PipelineResult where
  X_train : DF
  X_test : DF
  y_train : Column
  y_test : Column
  pre : Preprocessor
  scalerAfterTrainFit : Option ScalerFit
deriving DecidableEq, Repr

/-- `DataPreprocessing.preprocess_pipeline`: impute, encode the
categorical feature columns, encode a categorical target under the
reserved key "target", split, fit the scaler on the train partition and
apply the fitted transform to both partitions; a missing target column is
a `KeyError` surfaced to the caller.  Steps 6–7 persist the preprocessors
and the splits to disk — outside this model; the persisted scaler and
encoders are the returned `pre` state. -/
def preprocess_pipeline (pre : Preprocessor) (data : DF) (target_column : String)
    (test_size : ℚ) (perm : List Nat) : Except String PipelineResult :=
  -- Step 1: handle missing values
  let d1 := handle_missing_values_val data
  -- Step 2: encode categorical columns, the target excepted
  let categorical_cols := d1.objectCols.filter (fun c => ¬ c == target_column)
  let e2 := encode_categorical_val pre.label_encoders d1 (some categorical_cols)
  -- Step 3: encode the target if it is categorical
  match e2.1.findCol target_column with
  | none => .error ("KeyError: " ++ target_column)
  | some tc =>
      let d3 :=
        if tc.isObject then
          { e2.1 with cols := e2.1.cols.map (fun c =>
              if c.name == target_column then
                { c with dtype := "int64", data := (labelEncodeCol c.data).1 }
              else c) }
        else e2.1
      let enc3 :=
        if tc.isObject then pyUpsert e2.2 "target" (labelEncodeCol tc.data).2
        else e2.2
      -- Step 4: split
      match split_data d3 target_column test_size perm with
      | .error e => .error e
      | .ok (xtr, xte, ytr, yte) =>
          -- Step 5: fit the scaler on the train partition only, transform both
          let feature_cols := xtr.cols.map (fun c => c.name)
          let f := scalerFit (xtr.selectCols feature_cols)
          let xtr2 := scalerTransform f xtr
          let xte2 := scalerTransform f xte
          .ok { X_train := xtr2, X_test := xte2, y_train := ytr, y_test := yte,
                pre := { scaler := some f, label_encoders := enc3 },
                scalerAfterTrainFit := some f }

/-! ## `src/models/train.py` — class `ModelTrainer`

A fitted sklearn classifier is embedded as its prediction behaviour plus
its resolved constructor parameters; what `.fit` computes is the library's
business and enters as an explicit parameter (`fitAlg`) wherever `train`
is embedded, so every theorem holds for an arbitrary fitting algorithm.
Hyperparameter values in this code are integers; `joblib` persistence is a
path-keyed store.
-/

/-- The keys of `ModelTrainer.MODELS`, in their Python insertion order. -/
def MODELS : List String :=
  ["random_forest", "logistic_regression", "decision_tree", "gradient_boosting"]

/-- The `default_params` dict inside `ModelTrainer.get_model`
(`.get(model_name, {})` on anything else). -/
def default_params (model_name : String) : List (String × Int) :=
  if model_name = "random_forest" then [("n_estimators", 100), ("random_state", 42)]
  else if model_name = "logistic_regression" then [("random_state", 42), ("max_iter", 1000)]
  else if model_name = "decision_tree" then [("random_state", 42)]
  else if model_name = "gradient_boosting" then [("n_estimators", 100), ("random_state", 42)]
  else []

/-- The message of the `ValueError` raised for an unknown model name:
`f"Unknown model: {model_name}. Available: {list(self.MODELS.keys())}"`. -/
def unknownModelMsg (model_name : String) : String :=
  "Unknown model: " ++ model_name ++ ". Available: " ++ pyStrList MODELS

/-- An instantiated (not yet fitted) classifier: its kind and the fully
resolved constructor parameters. -/
structure ModelSpec where
  kind : String
  params : List (String × Int)
deriving DecidableEq, Repr

/-- `ModelTrainer.get_model`: looked up by name in `MODELS`; unknown names
raise; defaults are merged with the caller's parameters,
`{**default_params.get(model_name, {}), **params}`. -/
def get_model (model_name : String) (params : List (String × Int)) :
    Except String ModelSpec :=
  if model_name ∈ MODELS then
    .ok { kind := model_name, params := pyDictMerge (default_params model_name) params }
  else
    .error (unknownModelMsg model_name)

/-- A fitted model: the constructor data plus the behaviour `.fit`
produced — a class prediction per row and, when the classifier kind
exposes it, a probability vector per row. -/
structure FittedModel where
  kind : String
  params : List (String × Int)
  predictRow : List ℚ → Int
  predictProbaRow : Option (List ℚ → List ℚ)

/-- A value of `self.training_info`. -/
inductive InfoVal where
  | s (v : String) : InfoVal
  | i (v : Int) : InfoVal
  | q (v : ℚ) : InfoVal
  | params (v : List (String × Int)) : InfoVal
deriving DecidableEq, Repr

/-- The mutable attributes of a `ModelTrainer`. -/
structure TrainerState where
  artifacts_path : String
  model : Option FittedModel
  model_name : Option String
  training_info : List (String × InfoVal)

/-- A fresh `ModelTrainer(artifacts_path)`. -/
def TrainerState.init (artifacts_path : String) : TrainerState :=
  { artifacts_path := artifacts_path, model := none, model_name := none,
    training_info := [] }

/-- What the library's `.fit` returns for a given kind, resolved
parameters, features and labels: prediction behaviour and optional
probability behaviour. -/
abbrev FitAlg :=
  String → List (String × Int) → List (List ℚ) → List Int →
    (List ℚ → Int) × Option (List ℚ → List ℚ)

/-- `ModelTrainer.train`: sets `self.model_name`, instantiates via
`get_model` (an unknown name raises with `self.model` untouched), fits,
and records `self.training_info` (sample count, feature count, start/end
wall-clock strings and duration — the clock enters as arguments —, and the
fitted model's resolved parameters).  Returns the raised-or-fitted result
together with the trainer state as Python leaves it. -/
def train (fitAlg : FitAlg) (s : TrainerState) (X_train : List (List ℚ))
    (y_train : List Int) (model_name : String) (params : List (String × Int))
    (start_time end_time : String) (duration : ℚ) :
    Except String FittedModel × TrainerState :=
  let s1 := { s with model_name := some model_name }
  match get_model model_name params with
  | .error e => (.error e, s1)
  | .ok spec =>
      let fitted := fitAlg spec.kind spec.params X_train y_train
      let m : FittedModel :=
        { kind := spec.kind, params := spec.params,
          predictRow := fitted.1, predictProbaRow := fitted.2 }
      let info : List (String × InfoVal) :=
        [("model_name", .s model_name),
         ("training_samples", .i X_train.length),
         ("features", .i (X_train.headD []).length),
         ("start_time", .s start_time),
         ("end_time", .s end_time),
         ("duration_seconds", .q duration),
         ("parameters", .params spec.params)]
      (.ok m, { s1 with model := some m, training_info := info })

/-- One artifact as `save_model` persists it:
`{"model": ..., "training_info": ...}`; `training_info` is optional so
that `load_model`'s `.get("training_info", {})` is meaningful. -/
structure SaveData where
  model : FittedModel
  training_info : Option (List (String × InfoVal))

/-- The filesystem as `joblib` sees it: path ↦ artifact. -/
abbrev Store := List (String × SaveData)

/-- `ModelTrainer.save_model`: raises when nothing is trained; otherwise
writes `{model, training_info}` as one unit under
`artifacts_path/filename` (a `None` filename becomes a timestamped one;
the clock enters as `now`).  Returns the store and the path written. -/
def save_model (s : TrainerState) (store : Store) (filename : Option String)
    (now : String) : Except String (Store × String) :=
  match s.model with
  | none => .error "No model to save. Train a model first!"
  | some m =>
      let fname :=
        match filename with
        | some f => f
        | none =>
            "model_" ++ (match s.model_name with
              | some n => n
              | none => "None") ++ "_" ++ now ++ ".pkl"
      let model_path := s.artifacts_path ++ "/" ++ fname
      let sd : SaveData := { model := m, training_info := some s.training_info }
      .ok (pyUpsert store model_path sd, model_path)

/-- `ModelTrainer.load_model`: reads the artifact (a missing path raises),
restores `self.model` and `self.training_info`
(`save_data.get("training_info", {})`). -/
def load_model (s : TrainerState) (store : Store) (model_path : String) :
    Except String (FittedModel × TrainerState) :=
  match pyGet store model_path with
  | none => .error ("FileNotFoundError: " ++ model_path)
  | some sd =>
      .ok (sd.model,
           { s with model := some sd.model,
                    training_info := sd.training_info.getD [] })

/-- `ModelTrainer.predict`: raises before any train/load; otherwise the
model's prediction on every row. -/
def TrainerState.predict (s : TrainerState) (X : List (List ℚ)) :
    Except String (List Int) :=
  match s.model with
  | none => .error "No model loaded. Train or load a model first!"
  | some m => .ok (X.map m.predictRow)

/-- `ModelTrainer.predict_proba`: raises before any train/load and when
the model kind exposes no `predict_proba`. -/
def TrainerState.predict_proba (s : TrainerState) (X : List (List ℚ)) :
    Except String (List (List ℚ)) :=
  match s.model with
  | none => .error "No model loaded. Train or load a model first!"
  | some m =>
      match m.predictProbaRow with
      | none =>
          .error ("Model " ++ (match s.model_name with
            | some n => n
            | none => "None") ++ " does not support predict_proba")
      | some p => .ok (X.map p)

/-! ## `src/models/evaluate.py` — class `ModelEvaluator` -/

/-- `accuracy_score`: fraction of agreeing positions. -/
def accuracyScore (y_true y_pred : List Int) : ℚ :=
  (((y_true.zip y_pred).filter (fun p => p.1 == p.2)).length : ℚ) / (y_true.length : ℚ)

/-- Count of label `c` in `l`. -/
def countInt (l : List Int) (c : Int) : Nat :=
  (l.filter (fun x => x == c)).length

/-- True positives of class `c`. -/
def tpCount (y_true y_pred : List Int) (c : Int) : Nat :=
  ((y_true.zip y_pred).filter (fun p => p.1 == c && p.2 == c)).length

/-- Per-class precision with `zero_division=0`. -/
def precClass (y_true y_pred : List Int) (c : Int) : ℚ :=
  if countInt y_pred c = 0 then 0
  else (tpCount y_true y_pred c : ℚ) / (countInt y_pred c : ℚ)

/-- Per-class recall with `zero_division=0`. -/
def recClass (y_true y_pred : List Int) (c : Int) : ℚ :=
  if countInt y_true c = 0 then 0
  else (tpCount y_true y_pred c : ℚ) / (countInt y_true c : ℚ)

/-- Per-class F1 with `zero_division=0`. -/
def f1Class (y_true y_pred : List Int) (c : Int) : ℚ :=
  let p := precClass y_true y_pred c
  let r := recClass y_true y_pred c
  if p + r = 0 then 0 else 2 * p * r / (p + r)

/-- The labels sklearn scores over when none are given: the sorted union
of the true and predicted labels. -/
def unionLabels (y_true y_pred : List Int) : List Int :=
  uniqueSortedInt (y_true ++ y_pred)

/-- Support-weighted average of a per-class metric
(`average='weighted'`). -/
def weightedAvg (y_true y_pred : List Int) (f : List Int → List Int → Int → ℚ) : ℚ :=
  let labels := unionLabels y_true y_pred
  (labels.map (fun c => (countInt y_true c : ℚ) * f y_true y_pred c)).sum
    / (y_true.length : ℚ)

/-- `precision_score(..., average='weighted', zero_division=0)`. -/
def precisionWeighted (y_true y_pred : List Int) : ℚ :=
  weightedAvg y_true y_pred precClass

/-- `recall_score(..., average='weighted', zero_division=0)`. -/
def recallWeighted (y_true y_pred : List Int) : ℚ :=
  weightedAvg y_true y_pred recClass

/-- `f1_score(..., average='weighted', zero_division=0)`. -/
def f1Weighted (y_true y_pred : List Int) : ℚ :=
  weightedAvg y_true y_pred f1Class

/-- `confusion_matrix(y_true, y_pred).tolist()`: counts over the sorted
union of labels. -/
def confusionMatrix (y_true y_pred : List Int) : List (List Nat) :=
  let labels := unionLabels y_true y_pred
  labels.map (fun t => labels.map (fun p =>
    ((y_true.zip y_pred).filter (fun r => r.1 == t && r.2 == p)).length))

/-- A `predict_proba` output as numpy sees it: 1-dimensional or
2-dimensional. -/
inductive ProbaArr where
  | d1 (v : List ℚ) : ProbaArr
  | d2 (m : List (List ℚ)) : ProbaArr
deriving DecidableEq, Repr

/-- `if len(y_proba.shape) > 1: y_proba = y_proba[:, 1]` — the
positive-class probability column; a 2-d array without a column 1 raises
`IndexError`. -/
def extractPosColumn : ProbaArr → Except String (List ℚ)
  | .d1 v => .ok v
  | .d2 m =>
      if m.all (fun row => 1 < row.length) then
        .ok (m.map (fun row => (row[1]?).getD 0))
      else .error "IndexError"

/-- `roc_auc_score(y_true, y_score)` for the binary case the code guards
for: the positive class is the larger label; the score is the probability
a positive outranks a negative, ties counting half.  Mismatched lengths
and a degenerate class set raise. -/
def roc_auc_score (y_true : List Int) (y_score : List ℚ) : Except String ℚ :=
  let classes := uniqueSortedInt y_true
  if classes.length ≠ 2 then
    .error "ROC AUC score is not defined in that case"
  else if y_true.length ≠ y_score.length then
    .error "Found input variables with inconsistent numbers of samples"
  else
    let pos := (classes[1]?).getD 0
    let pairs := y_true.zip y_score
    let posS := pairs.filterMap (fun p => if p.1 == pos then some p.2 else none)
    let negS := pairs.filterMap (fun p => if p.1 == pos then none else some p.2)
    let num : ℚ :=
      (posS.map (fun a =>
        (negS.map (fun b =>
          if b < a then (1 : ℚ) else if a = b then 1/2 else 0)).sum)).sum
    .ok (num / ((posS.length : ℚ) * (negS.length : ℚ)))

/-- The dict `calculate_metrics` builds.  `roc_auc = none` means the key
is absent; `some none` is the recorded Python `None` after a caught
failure; `some (some x)` is a computed score. -/
structure Metrics where
  accuracy : ℚ
  precision : ℚ
  -- the dict key is "recall"; `recall` is a reserved word here
  recall_ : ℚ
  f1_score : ℚ
  confusion_matrix : List (List Nat)
  n_classes : Nat
  samples_evaluated : Nat
  roc_auc : Option (Option ℚ)
deriving DecidableEq, Repr

/-- The `try` block guarding the optional ROC-AUC computation: extract the
positive-class column when the array is 2-dimensional, score it; any
failure is caught and recorded as `None`. -/
def tryRocAuc (y_true : List Int) (pa : ProbaArr) : Option ℚ :=
  match extractPosColumn pa with
  | .error _ => none
  | .ok col =>
      match roc_auc_score y_true col with
      | .error _ => none
      | .ok v => some v

/-- `ModelEvaluator.calculate_metrics`: always computes accuracy, the
weighted precision/recall/F1, the confusion matrix, the class count and
the sample count; when exactly two classes are present in `y_true` and a
probability output was supplied it additionally computes ROC-AUC from the
positive-class column, recording `None` instead of propagating any
failure of that step. -/
def calculate_metrics (y_true y_pred : List Int) (y_proba : Option ProbaArr) :
    Metrics :=
  let n_classes := (uniqueSortedInt y_true).length
  let is_binary := n_classes = 2
  let base : Metrics :=
    { accuracy := accuracyScore y_true y_pred,
      precision := precisionWeighted y_true y_pred,
      recall_ := recallWeighted y_true y_pred,
      f1_score := f1Weighted y_true y_pred,
      confusion_matrix := confusionMatrix y_true y_pred,
      n_classes := n_classes,
      samples_evaluated := y_true.length,
      roc_auc := none }
  match y_proba with
  | some pa =>
      if is_binary then { base with roc_auc := some (tryRocAuc y_true pa) }
      else base
  | none => base

/-! ## `src/api/routes.py` — the `/predict/batch` route

Python resolves a bare name through the local, enclosing and module
scopes.  The embedding carries the names `routes.py` actually binds at
module scope (plus the route's sole parameter) as an environment; a name
absent from it raises `NameError` at its first use.
-/

/-- A Python value a name of the routes module can be bound to, to the
granularity the `/predict/batch` body needs. -/
inductive PyVal where
  | pyNone : PyVal
  | trainer (t : TrainerState) : PyVal
  | modelsDict (d : List (String × TrainerState)) : PyVal
  | other : PyVal

/-- The serving layer's global state: the model registry built at startup
(`loaded_models`). -/
structure RoutesGlobals where
  loaded_models : List (String × TrainerState)

/-- The names visible inside `predict_batch`: its parameter `request`,
then every module-scope binding of `routes.py` (imports, the router, the
registry, the labels and the route handlers). -/
def predict_batch_env (g : RoutesGlobals) : List (String × PyVal) :=
  [("request", .other),
   ("APIRouter", .other), ("HTTPException", .other), ("np", .other),
   ("List", .other), ("Dict", .other),
   ("HealthResponse", .other), ("ModelInfoResponse", .other),
   ("PredictionRequest", .other), ("PredictionResponse", .other),
   ("BatchPredictionRequest", .other), ("BatchPredictionResponse", .other),
   ("ModelType", .other),
   ("router", .other),
   ("loaded_models", .modelsDict g.loaded_models),
   ("default_model_name", .other),
   ("COVER_TYPE_LABELS", .other),
   ("set_loaded_models", .other), ("get_model", .other),
   ("health_check", .other), ("get_model_info", .other),
   ("predict", .other), ("predict_batch", .other)]

/-- A `POST /predict/batch` body. -/
structure BatchRequest where
  instances : List (List ℚ)

/-- How a call of the route handler ends: a response, an
`HTTPException` it raised, or an exception no handler catches (which the
framework turns into a 500). -/
inductive BatchOutcome where
  | ok (predictions : List Int) (count : Nat) : BatchOutcome
  | httpError (status : Nat) (detail : String) : BatchOutcome
  | uncaughtException (msg : String) : BatchOutcome

/-- `predict_batch` of `routes.py`.  Its first statement reads the bare
name `model_trainer`; the function never binds it and the module binds no
such global, so the match below resolves the name against the environment
exactly as Python does — an unbound name raises `NameError` before the
`try` block is entered.  The remaining statements are translated under the
resolved value. -/
def predict_batch (g : RoutesGlobals) (request : BatchRequest) : BatchOutcome :=
  match pyGet (predict_batch_env g) "model_trainer" with
  | none => .uncaughtException "NameError: name model_trainer is not defined"
  | some v =>
      -- if model_trainer is None or model_trainer.model is None: 503
      match v with
      | .pyNone => .httpError 503 "Model not loaded"
      | .trainer t =>
          match t.model with
          | none => .httpError 503 "Model not loaded"
          | some m =>
              -- try: features = np.array(request.instances);
              --      predictions = model_trainer.predict(features)
              .ok (request.instances.map m.predictRow)
                  (request.instances.map m.predictRow).length
      | .modelsDict _ => .uncaughtException "AttributeError"
      | .other => .uncaughtException "AttributeError"

/-! # Theorems

First a few characterisation lemmas for the validation checks, then the
claims in order.
-/

/-- What one `validate_columns` call does, as one equation. -/
theorem validate_columns_apply (s : ValReportState) (d : DF) (l : List String) :
    validate_columns s d l =
      ((l.filter (fun col => ¬ d.hasCol col)).isEmpty,
       { s with missing_columns :=
           (some (if (l.filter (fun col => ¬ d.hasCol col)).isEmpty then []
                  else l.filter (fun col => ¬ d.hasCol col))) }) := by
  unfold validate_columns
  dsimp only
  split_ifs with h
  · rw [h]
  · rw [Bool.not_eq_true] at h; rw [h]

/-- What one `validate_missing_values` call does, as one equation. -/
theorem validate_missing_values_apply (s : ValReportState) (d : DF) (t : ℚ) :
    validate_missing_values s d t =
      (((d.cols.map (fun c => (c.name, ratioNat c.data.numNulls d.nrows))).filter
          (fun p => p.2.gtQ t)).isEmpty,
       { s with high_missing_columns :=
           (some (if ((d.cols.map (fun c => (c.name, ratioNat c.data.numNulls d.nrows))).filter
                       (fun p => p.2.gtQ t)).isEmpty then []
                  else (d.cols.map (fun c => (c.name, ratioNat c.data.numNulls d.nrows))).filter
                       (fun p => p.2.gtQ t))) }) := by
  unfold validate_missing_values
  dsimp only
  split_ifs with h
  · rw [h]
  · rw [Bool.not_eq_true] at h; rw [h]

/-- What one `validate_data_types` call does, as one equation. -/
theorem validate_data_types_apply (s : ValReportState) (d : DF)
    (et : List (String × String)) :
    validate_data_types s d et =
      ((et.filterMap (fun p =>
          match d.findCol p.1 with
          | none => none
          | some c =>
              if strContains c.dtype p.2 then none
              else some (p.1, p.2, c.dtype))).isEmpty,
       { s with type_mismatches :=
           (some (if (et.filterMap (fun p =>
                    match d.findCol p.1 with
                    | none => none
                    | some c =>
                        if strContains c.dtype p.2 then none
                        else some (p.1, p.2, c.dtype))).isEmpty then []
                  else et.filterMap (fun p =>
                    match d.findCol p.1 with
                    | none => none
                    | some c =>
                        if strContains c.dtype p.2 then none
                        else some (p.1, p.2, c.dtype)))) }) := by
  unfold validate_data_types
  dsimp only
  split_ifs with h
  · rw [h]
  · rw [Bool.not_eq_true] at h; rw [h]

/-- C3: for every dataset and combination of optional arguments,
`validate_all`'s `overall_valid` is the conjunction of the three check
flags; a check that was not requested keeps its flag `True`, and a
requested check's flag is exactly that check's result on the data. -/
theorem validate_all_overall_is_conjunction (s : ValReportState) (data : DF)
    (rc : Option (List String)) (et : Option (List (String × String))) (t : ℚ) :
    ((validate_all s data rc et t).1.overall_valid
        = ((validate_all s data rc et t).1.columns_valid
            && (validate_all s data rc et t).1.missing_valid
            && (validate_all s data rc et t).1.types_valid))
    ∧ (listTruthy rc = false → (validate_all s data rc et t).1.columns_valid = true)
    ∧ (listTruthy et = false → (validate_all s data rc et t).1.types_valid = true)
    ∧ (∀ l, rc = some l → listTruthy rc = true →
        (validate_all s data rc et t).1.columns_valid = (validate_columns s data l).1)
    ∧ ((validate_all s data rc et t).1.missing_valid
        = (validate_missing_values s data t).1)
    ∧ (∀ l, et = some l → listTruthy et = true →
        (validate_all s data rc et t).1.types_valid = (validate_data_types s data l).1) := by
  obtain ⟨sm, sh, st⟩ := s
  by_cases hrc : listTruthy rc <;> by_cases het : listTruthy et <;>
    simp [validate_all, hrc, het, validate_columns_apply,
      validate_missing_values_apply, validate_data_types_apply] <;>
    (try constructor) <;> (intro l hl; subst hl; simp [listTruthy] at hrc het ⊢)

/-- C3 (witness): on an empty frame with required column "a" and no
expected types, the conjunction law and the requested-check equation hold
concretely. -/
theorem validate_all_overall_is_conjunction_witness :
    ((validate_all ValReportState.init ⟨0, []⟩ (some ["a"]) none 0).1.columns_valid
        = (validate_columns ValReportState.init ⟨0, []⟩ ["a"]).1)
    ∧ ((validate_all ValReportState.init ⟨0, []⟩ (some ["a"]) none 0).1.overall_valid
        = ((validate_all ValReportState.init ⟨0, []⟩ (some ["a"]) none 0).1.columns_valid
            && (validate_all ValReportState.init ⟨0, []⟩ (some ["a"]) none 0).1.missing_valid
            && (validate_all ValReportState.init ⟨0, []⟩ (some ["a"]) none 0).1.types_valid))
    ∧ (validate_all ValReportState.init ⟨0, []⟩ (some ["a"]) none 0).1.types_valid = true :=
  ⟨(validate_all_overall_is_conjunction ValReportState.init ⟨0, []⟩ (some ["a"]) none 0).2.2.2.1
      ["a"] rfl (by decide),
   (validate_all_overall_is_conjunction ValReportState.init ⟨0, []⟩ (some ["a"]) none 0).1,
   (validate_all_overall_is_conjunction ValReportState.init ⟨0, []⟩ (some ["a"]) none 0).2.2.1
      (by decide)⟩

/-- C4 (counterexample): `validate_all`'s result is not a function of the
call's arguments alone.  Two calls with identical arguments — the same
empty frame, no required columns, no expected types, the same threshold —
return different reports depending on what the validator did before: a
validator that previously checked for a column "a" still carries
`missing_columns = ["a"]` in the `details` of the later, unrelated
call. -/
theorem validate_all_result_depends_on_prior_calls :
    (validate_all
        (validate_all ValReportState.init ⟨0, []⟩ (some ["a"]) none 0).2
        ⟨0, []⟩ none none 0).1
      ≠ (validate_all ValReportState.init ⟨0, []⟩ none none 0).1 := by
  decide

/-- C4 (amended): `validate_all` is a pure function of the validator's
report state and the call's arguments — in this embedding it never touches
the dataset at all, and repeating a call with the same arguments from the
state the first call produced returns the identical report and leaves the
state fixed. -/
theorem validate_all_repeat_is_identical (s : ValReportState) (data : DF)
    (rc : Option (List String)) (et : Option (List (String × String))) (t : ℚ) :
    validate_all (validate_all s data rc et t).2 data rc et t
      = validate_all s data rc et t := by
  obtain ⟨sm, sh, st⟩ := s
  by_cases hrc : listTruthy rc <;> by_cases het : listTruthy et <;>
    simp [validate_all, hrc, het, validate_columns_apply,
      validate_missing_values_apply, validate_data_types_apply]

/-- C10: on a frame with zero rows every per-column missing ratio is the
`0/0` float `NaN`, which compares below every threshold, so
`validate_missing_values` succeeds and records no offending column. -/
theorem validate_missing_values_zero_rows (s : ValReportState) (data : DF)
    (t : ℚ) (h0 : data.nrows = 0) (hwf : data.wf) :
    (validate_missing_values s data t).1 = true ∧
    (validate_missing_values s data t).2.high_missing_columns = some [] := by
  have hfilter : ((data.cols.map (fun c => (c.name, ratioNat c.data.numNulls data.nrows))).filter
      (fun p => p.2.gtQ t)) = [] := by
    apply List.filter_eq_nil_iff.mpr
    intro p hp
    obtain ⟨c, hc, rfl⟩ := List.mem_map.mp hp
    have hlen : c.data.length = 0 := by rw [hwf c hc, h0]
    have hnulls : c.data.numNulls = 0 := by
      cases hd : c.data with
      | numeric vs =>
          rw [hd] at hlen
          simp only [ColData.length] at hlen
          simp [ColData.numNulls, List.eq_nil_of_length_eq_zero hlen]
      | object vs =>
          rw [hd] at hlen
          simp only [ColData.length] at hlen
          simp [ColData.numNulls, List.eq_nil_of_length_eq_zero hlen]
    simp [hnulls, h0, ratioNat, PFloat.gtQ]
  rw [validate_missing_values_apply]
  simp [hfilter]

/-- C10 (witness): a zero-row frame with one integer column. -/
theorem validate_missing_values_zero_rows_witness :
    (validate_missing_values ValReportState.init
        ⟨0, [⟨"Elevation", "int64", ColData.numeric []⟩]⟩ 0).1 = true ∧
    (validate_missing_values ValReportState.init
        ⟨0, [⟨"Elevation", "int64", ColData.numeric []⟩]⟩ 0).2.high_missing_columns
      = some [] :=
  validate_missing_values_zero_rows ValReportState.init
    ⟨0, [⟨"Elevation", "int64", ColData.numeric []⟩]⟩ 0 rfl (by decide)

/-! ### Preprocessing: the scaler is fitted on the train partition only -/

/-- Mapping a name-preserving function over columns preserves the name
list. -/
theorem map_name_of_preserve (f : Column → Column)
    (hf : ∀ c, (f c).name = c.name) (l : List Column) :
    (l.map f).map (fun c => c.name) = l.map (fun c => c.name) := by
  induction l with
  | nil => rfl
  | cons c cs ih => simp [hf c, ih]

/-- `hasCol` only looks at the column names. -/
theorem hasCol_eq_names (d : DF) (n : String) :
    d.hasCol n = (d.cols.map (fun c => c.name)).any (fun m => m == n) := by
  unfold DF.hasCol
  induction d.cols with
  | nil => rfl
  | cons c cs ih => simp only [List.any_cons, List.map_cons, ih]

/-- `findCol` succeeds exactly when `hasCol` holds. -/
theorem findCol_isSome (d : DF) (n : String) :
    (d.findCol n).isSome = d.hasCol n := by
  simp [DF.findCol, DF.hasCol]
  induction d.cols with
  | nil => rfl
  | cons c cs ih =>
      by_cases h : c.name == n <;> simp [List.find?, List.any, h, ih]

/-- Imputing numeric columns does not change the column names. -/
theorem names_imputeNumericDF (d : DF) :
    (imputeNumericDF d).cols.map (fun c => c.name) = d.cols.map (fun c => c.name) := by
  apply map_name_of_preserve
  intro c
  cases h : c.data <;> simp [h]

/-- Imputing categorical columns does not change the column names. -/
theorem names_imputeCategoricalDF (d : DF) :
    (imputeCategoricalDF d).cols.map (fun c => c.name) = d.cols.map (fun c => c.name) := by
  apply map_name_of_preserve
  intro c
  cases h : c.data <;> simp [h]

/-- `handle_missing_values` does not change the column names. -/
theorem names_handle_missing_values_val (d : DF) :
    (handle_missing_values_val d).cols.map (fun c => c.name)
      = d.cols.map (fun c => c.name) := by
  unfold handle_missing_values_val replace_none_with_nan
  rw [names_imputeCategoricalDF, names_imputeNumericDF]

/-- Label-encoding one column in place does not change the column names. -/
theorem names_encodeColInDF (d : DF) (col : String) :
    (encodeColInDF d col).cols.map (fun c => c.name) = d.cols.map (fun c => c.name) := by
  apply map_name_of_preserve
  intro c
  by_cases h : c.name == col <;> simp [h]

/-- `encode_categorical` does not change the column names. -/
theorem names_encode_categorical_val (cols : List String) (d : DF) (enc : Encoders) :
    ((encode_categorical_val enc d (some cols)).1).cols.map (fun c => c.name)
      = d.cols.map (fun c => c.name) := by
  unfold encode_categorical_val
  induction cols generalizing d enc with
  | nil => rfl
  | cons col rest ih =>
      simp only [List.foldl_cons]
      cases hf : d.findCol col with
      | none => simp only [hf]; exact ih d enc
      | some c =>
          simp only [hf]
          rw [ih]
          exact names_encodeColInDF d col

/-- `split_data` succeeds whenever the target column is present. -/
theorem split_data_ok_of_hasCol (d : DF) (tc : String) (ts : ℚ) (perm : List Nat)
    (h : d.hasCol tc = true) :
    ∃ out, split_data d tc ts perm = Except.ok out := by
  unfold split_data
  have hs : (d.findCol tc).isSome = true := by rw [findCol_isSome]; exact h
  obtain ⟨c, hc⟩ := Option.isSome_iff_exists.mp hs
  rw [hc]
  exact ⟨_, rfl⟩

/-- C2: for every dataset containing the target column (and any prior
preprocessor state, split fraction and seed-drawn permutation) the
pipeline succeeds, and its fitted scaler state is computed by
`StandardScaler.fit` on the train partition of the split alone; the test
partition is transformed with exactly that fitted state, and the scaler
state after the test partition was transformed (`res.pre.scaler`, what
`save_preprocessors` persists) is identical to the state immediately
after the train-only fit (`res.scalerAfterTrainFit`) — transforming the
test set never refits the scaler. -/
theorem preprocess_pipeline_scaler_from_train_only (pre : Preprocessor) (data : DF)
    (target_column : String) (test_size : ℚ) (perm : List Nat)
    (htc : data.hasCol target_column = true) :
    ∃ res : PipelineResult,
      preprocess_pipeline pre data target_column test_size perm = Except.ok res ∧
      res.pre.scaler = res.scalerAfterTrainFit ∧
      ∃ d3 xtr xte ytr yte,
        split_data d3 target_column test_size perm = Except.ok (xtr, xte, ytr, yte) ∧
        res.pre.scaler
          = some (scalerFit (xtr.selectCols (xtr.cols.map (fun c => c.name)))) ∧
        res.X_train
          = scalerTransform (scalerFit (xtr.selectCols (xtr.cols.map (fun c => c.name)))) xtr ∧
        res.X_test
          = scalerTransform (scalerFit (xtr.selectCols (xtr.cols.map (fun c => c.name)))) xte := by
  have h1 : ((encode_categorical_val pre.label_encoders (handle_missing_values_val data)
      (some ((handle_missing_values_val data).objectCols.filter
        (fun c => ¬ c == target_column)))).1).hasCol target_column = true := by
    rw [hasCol_eq_names, names_encode_categorical_val, names_handle_missing_values_val,
      ← hasCol_eq_names]
    exact htc
  unfold preprocess_pipeline
  dsimp only
  generalize hE : encode_categorical_val pre.label_encoders (handle_missing_values_val data)
      (some ((handle_missing_values_val data).objectCols.filter
        (fun c => ¬ c == target_column))) = E
  rw [hE] at h1
  obtain ⟨tcCol, htcCol⟩ := Option.isSome_iff_exists.mp (by rw [findCol_isSome]; exact h1)
  rw [htcCol]
  dsimp only
  have h3 : (if tcCol.isObject then
      ({ nrows := E.1.nrows, cols := E.1.cols.map (fun c =>
          if c.name == target_column then
            { name := c.name, dtype := "int64", data := (labelEncodeCol c.data).1 }
          else c) } : DF)
    else E.1).hasCol target_column = true := by
    by_cases hobj : tcCol.isObject <;>
      simp only [hobj, if_true, if_false, Bool.false_eq_true]
    · rw [hasCol_eq_names]
      show ((E.1.cols.map (fun c =>
          if c.name == target_column then
            { name := c.name, dtype := "int64", data := (labelEncodeCol c.data).1 }
          else c)).map (fun c => c.name)).any (fun m => m == target_column) = true
      rw [map_name_of_preserve]
      · rw [← hasCol_eq_names]; exact h1
      · intro c; by_cases h : c.name == target_column <;> simp [h]
    · exact h1
  obtain ⟨out, hout⟩ := split_data_ok_of_hasCol _ target_column test_size perm h3
  obtain ⟨xtr, xte, ytr, yte⟩ := out
  rw [hout]
  exact ⟨_, rfl, rfl, _, xtr, xte, ytr, yte, hout, rfl, rfl, rfl⟩

/-- C2 (witness): a two-row frame with one feature column and an integer
target, identity permutation, split fraction 0. -/
theorem preprocess_pipeline_scaler_witness :
    (DF.hasCol ⟨2, [⟨"f", "int64", ColData.numeric [some 1, some 3]⟩,
        ⟨"y", "int64", ColData.numeric [some 0, some 1]⟩]⟩ "y" = true) ∧
    ∃ res : PipelineResult,
      preprocess_pipeline ⟨none, []⟩
          ⟨2, [⟨"f", "int64", ColData.numeric [some 1, some 3]⟩,
               ⟨"y", "int64", ColData.numeric [some 0, some 1]⟩]⟩ "y" 0 [0, 1]
        = Except.ok res ∧
      res.pre.scaler = res.scalerAfterTrainFit :=
  ⟨by decide,
   match preprocess_pipeline_scaler_from_train_only ⟨none, []⟩
      ⟨2, [⟨"f", "int64", ColData.numeric [some 1, some 3]⟩,
           ⟨"y", "int64", ColData.numeric [some 0, some 1]⟩]⟩ "y" 0 [0, 1]
      (by decide) with
   | ⟨res, hok, hsc, _⟩ => ⟨res, hok, hsc⟩⟩

/-! ### Preprocessing: the methods return fresh frames and never mutate
their argument -/

/-- The heap one `alloc` later agrees below the old length. -/
theorem heap_alloc_get (h : Heap) (d : DF) (r : Nat) (hr : r < h.length) :
    ((Heap.alloc h d).1)[r]? = h[r]? := by
  unfold Heap.alloc
  exact List.getElem?_append_left hr

/-- Allocation grows the heap by one. -/
theorem heap_alloc_length (h : Heap) (d : DF) :
    (Heap.alloc h d).1.length = h.length + 1 := by
  simp [Heap.alloc]

/-- Writing through one reference leaves every other reference's frame
untouched. -/
theorem heap_write_get (h : Heap) (i : Nat) (d : DF) (r : Nat) (hne : i ≠ r) :
    (Heap.write h i d)[r]? = h[r]? := by
  unfold Heap.write
  rw [List.getElem?_set_ne hne]

/-- The encoding loop writes only through its own local reference `j`. -/
theorem encodeStepH_foldl_get (cols : List String) (acc : Heap × Encoders)
    (j r : Nat) (hne : r ≠ j) :
    ((cols.foldl (encodeStepH j) acc).1)[r]? = acc.1[r]? := by
  induction cols generalizing acc with
  | nil => rfl
  | cons c rest ih =>
      rw [List.foldl_cons, ih]
      unfold encodeStepH
      dsimp only
      cases hf : (Heap.read acc.1 j).findCol c with
      | none => rfl
      | some cc =>
          simp only [hf]
          exact heap_write_get acc.1 j _ r (Ne.symm hne)

/-- C9: `handle_missing_values`, `encode_categorical` and
`scale_features` each return a reference to a frame freshly allocated
above the whole input heap, and the frame their argument reference
denotes is the same after the call as before — the methods copy, then
mutate only the copy. -/
theorem preprocessing_methods_leave_input_unchanged (h : Heap) (r : Nat)
    (enc : Encoders) (sc : Option ScalerFit)
    (cols1 cols2 : Option (List String)) (hr : r < h.length) :
    ((handle_missing_values_h h r).1[r]? = h[r]?
        ∧ r < (handle_missing_values_h h r).2)
    ∧ ((encode_categorical_h h r enc cols1).1[r]? = h[r]?
        ∧ r < (encode_categorical_h h r enc cols1).2.1)
    ∧ ((scale_features_h h r sc cols2).1[r]? = h[r]?
        ∧ r < (scale_features_h h r sc cols2).2.1) := by
  have hlt1 : r < (h ++ [Heap.read h r]).length := by
    rw [List.length_append]; omega
  have hne1 : (h ++ [Heap.read h r]).length ≠ r := by
    rw [List.length_append]; omega
  have hne0 : r ≠ h.length := by omega
  refine ⟨⟨?_, ?_⟩, ⟨?_, ?_⟩, ?_, ?_⟩
  · unfold handle_missing_values_h
    simp only [Heap.alloc]
    rw [heap_write_get _ _ _ _ hne1, heap_write_get _ _ _ _ hne1,
      List.getElem?_append_left hlt1, List.getElem?_append_left hr]
  · unfold handle_missing_values_h
    simp only [Heap.alloc]
    rw [List.length_append]
    omega
  · unfold encode_categorical_h
    simp only [Heap.alloc]
    rw [encodeStepH_foldl_get _ _ _ _ hne0]
    exact List.getElem?_append_left hr
  · unfold encode_categorical_h
    simp only [Heap.alloc]
    exact hr
  · unfold scale_features_h
    simp only [Heap.alloc]
    split
    · exact List.getElem?_append_left hr
    · rw [heap_write_get _ _ _ _ (Ne.symm hne0)]
      exact List.getElem?_append_left hr
  · unfold scale_features_h
    simp only [Heap.alloc]
    split <;> exact hr

/-- C9 (witness): a one-frame heap whose single frame has a nullable
numeric column and an object column. -/
theorem preprocessing_methods_leave_input_unchanged_witness :
    (0 < ([⟨2, [⟨"a", "float64", ColData.numeric [some 1, none]⟩,
        ⟨"b", "object", ColData.object [some "x", none]⟩]⟩] : Heap).length)
    ∧ ((handle_missing_values_h [⟨2, [⟨"a", "float64", ColData.numeric [some 1, none]⟩,
          ⟨"b", "object", ColData.object [some "x", none]⟩]⟩] 0).1[0]?
        = ([⟨2, [⟨"a", "float64", ColData.numeric [some 1, none]⟩,
          ⟨"b", "object", ColData.object [some "x", none]⟩]⟩] : Heap)[0]?
        ∧ 0 < (handle_missing_values_h [⟨2, [⟨"a", "float64", ColData.numeric [some 1, none]⟩,
          ⟨"b", "object", ColData.object [some "x", none]⟩]⟩] 0).2) :=
  ⟨by decide,
   (preprocessing_methods_leave_input_unchanged
      [⟨2, [⟨"a", "float64", ColData.numeric [some 1, none]⟩,
        ⟨"b", "object", ColData.object [some "x", none]⟩]⟩] 0 [] none none none
      (by decide)).1⟩

/-! ### Training: model lookup, hyperparameter resolution, persistence -/

/-- One step of `pyGet`. -/
theorem pyGet_cons {β : Type} (kv : String × β) (rest : List (String × β))
    (k : String) :
    pyGet (kv :: rest) k = if kv.1 == k then some kv.2 else pyGet rest k := by
  simp only [pyGet, List.find?]
  by_cases h : kv.1 == k <;> simp [h]

/-- An absent key looks up to `none`. -/
theorem pyGet_eq_none {β : Type} (d : List (String × β)) (k : String)
    (h : k ∉ d.map Prod.fst) : pyGet d k = none := by
  induction d with
  | nil => rfl
  | cons kv rest ih =>
      rw [pyGet_cons, if_neg]
      · exact ih (by intro hm; exact h (by simp [hm]))
      · intro hb
        exact h (by simp [eq_of_beq hb])

/-- Looking a key up after a Python dict assignment: the assigned key maps
to the new value, every other key is untouched. -/
theorem pyGet_pyUpsert {β : Type} (d : List (String × β)) (k k' : String) (v : β) :
    pyGet (pyUpsert d k v) k' = if k' = k then some v else pyGet d k' := by
  induction d with
  | nil =>
      show pyGet [(k, v)] k' = if k' = k then some v else pyGet [] k'
      rw [pyGet_cons]
      by_cases h : k' = k
      · subst h; rw [if_pos (by simp), if_pos rfl]
      · rw [if_neg (by simp; exact Ne.symm h), if_neg h]
  | cons kv rest ih =>
      simp only [pyUpsert]
      by_cases h1 : kv.1 == k
      · rw [if_pos h1]
        have h1' : kv.1 = k := eq_of_beq h1
        by_cases h2 : k' = k
        · subst h2
          rw [pyGet_cons, if_pos (by simp), if_pos rfl]
        · rw [pyGet_cons, if_neg (by simp; exact Ne.symm h2), if_neg h2, pyGet_cons,
            if_neg (by simp [h1']; exact Ne.symm h2)]
      · rw [if_neg h1]
        rw [pyGet_cons, pyGet_cons, ih]
        by_cases h2 : kv.1 == k'
        · by_cases h3 : k' = k
          · exact absurd (h3 ▸ h2) h1
          · rw [if_pos h2, if_neg h3, if_pos h2]
        · rw [if_neg h2]
          by_cases h3 : k' = k
          · rw [if_pos h3, if_pos h3]
          · rw [if_neg h3, if_neg h3, if_neg h2]

/-- Looking up in `{**a, **b}` (with `b`'s keys distinct, as Python
keyword arguments are): `b`'s binding wins, otherwise `a`'s remains. -/
theorem pyGet_pyDictMerge {β : Type} (a b : List (String × β))
    (hb : (b.map Prod.fst).Nodup) (k : String) :
    pyGet (pyDictMerge a b) k =
      (match pyGet b k with
       | some v => some v
       | none => pyGet a k) := by
  induction b generalizing a with
  | nil => rfl
  | cons kv rest ih =>
      rw [List.map_cons] at hb
      obtain ⟨hk, hrest⟩ := List.nodup_cons.mp hb
      have step : pyDictMerge a (kv :: rest) = pyDictMerge (pyUpsert a kv.1 kv.2) rest := rfl
      rw [step, ih _ hrest, pyGet_cons]
      by_cases h1 : k = kv.1
      · have hnone : pyGet rest k = none := by
          apply pyGet_eq_none
          rw [h1]
          exact hk
        rw [hnone, if_pos (by simp [h1])]
        show pyGet (pyUpsert a kv.1 kv.2) k = some kv.2
        rw [pyGet_pyUpsert, if_pos h1]
      · rw [if_neg (by simp; exact Ne.symm h1)]
        cases hrk : pyGet rest k with
        | some v => rfl
        | none =>
            show pyGet (pyUpsert a kv.1 kv.2) k = pyGet a k
            rw [pyGet_pyUpsert, if_neg h1]

/-- A substring of `b` is a substring of `a ++ b`. -/
theorem hasSubChars_append (n : List Char) (pre post : List Char)
    (hpost : hasSubChars n post = true) : hasSubChars n (pre ++ post) = true := by
  induction pre with
  | nil => simpa using hpost
  | cons c cs ih => simp [hasSubChars, ih]

/-- A substring of `b` is a substring of `a ++ b`, on strings. -/
theorem strContains_append_right (a b n : String) (h : strContains b n = true) :
    strContains (a ++ b) n = true := by
  unfold strContains at *
  rw [show (a ++ b).toList = a.toList ++ b.toList by simp [String.toList]]
  exact hasSubChars_append _ _ _ h

/-- C5: `train` with a model-type name outside the supported set raises
the `ValueError` of `get_model` — whose message spells out all four valid
type names — and leaves `self.model` untouched, so nothing is fitted;
every name inside the set constructs a classifier of that kind. -/
theorem train_unknown_model_type (fitAlg : FitAlg) (s : TrainerState)
    (X : List (List ℚ)) (y : List Int) (name : String)
    (params : List (String × Int)) (t0 t1 : String) (dur : ℚ)
    (hname : name ∉ MODELS) :
    ((train fitAlg s X y name params t0 t1 dur).1
        = Except.error (unknownModelMsg name))
    ∧ (train fitAlg s X y name params t0 t1 dur).2.model = s.model
    ∧ (∀ m ∈ MODELS, strContains (unknownModelMsg name) m = true)
    ∧ (∀ n ∈ MODELS, ∀ ps, ∃ spec, get_model n ps = Except.ok spec ∧ spec.kind = n) := by
  have hget : get_model name params = Except.error (unknownModelMsg name) := by
    unfold get_model; rw [if_neg hname]
  refine ⟨?_, ?_, ?_, ?_⟩
  · unfold train; rw [hget]
  · unfold train; rw [hget]
  · intro m hm
    have hsub : strContains (pyStrList MODELS) m = true := by
      fin_cases hm <;> decide
    unfold unknownModelMsg
    exact strContains_append_right _ _ _ hsub
  · intro n hn ps
    exact ⟨_, by unfold get_model; rw [if_pos hn], rfl⟩

/-- C5 (witness): the name "svm" is rejected with the message naming all
four types, the state keeps its model, and "random_forest" constructs. -/
theorem train_unknown_model_type_witness :
    ("svm" ∉ MODELS)
    ∧ ((train (fun _ _ _ _ => (fun _ => 0, none)) (TrainerState.init "artifacts")
          [] [] "svm" [] "t0" "t1" 0).1 = Except.error (unknownModelMsg "svm"))
    ∧ strContains (unknownModelMsg "svm") "gradient_boosting" = true
    ∧ ∃ spec, get_model "random_forest" [] = Except.ok spec ∧ spec.kind = "random_forest" :=
  ⟨by decide,
   (train_unknown_model_type (fun _ _ _ _ => (fun _ => 0, none))
      (TrainerState.init "artifacts") [] [] "svm" [] "t0" "t1" 0 (by decide)).1,
   (train_unknown_model_type (fun _ _ _ _ => (fun _ => 0, none))
      (TrainerState.init "artifacts") [] [] "svm" [] "t0" "t1" 0 (by decide)).2.2.1
      "gradient_boosting" (by decide),
   (train_unknown_model_type (fun _ _ _ _ => (fun _ => 0, none))
      (TrainerState.init "artifacts") [] [] "svm" [] "t0" "t1" 0 (by decide)).2.2.2
      "random_forest" (by decide) []⟩

/-- C6: for every supported type, `get_model` constructs the classifier
with the named defaults of that type overridden by name with the caller's
keyword arguments (whose keys are distinct, as Python guarantees): a key
the caller passed resolves to the caller's value, and a key the caller
did not pass keeps its default. -/
theorem get_model_merges_defaults (model_name : String) (hm : model_name ∈ MODELS)
    (params : List (String × Int)) (hnd : (params.map Prod.fst).Nodup) (k : String) :
    ∃ spec, get_model model_name params = Except.ok spec ∧ spec.kind = model_name ∧
      (∀ v, pyGet params k = some v → pyGet spec.params k = some v) ∧
      (pyGet params k = none →
        pyGet spec.params k = pyGet (default_params model_name) k) := by
  unfold get_model
  rw [if_pos hm]
  refine ⟨_, rfl, rfl, ?_, ?_⟩
  · intro v hv
    have hmerge := pyGet_pyDictMerge (default_params model_name) params hnd k
    rw [hv] at hmerge
    exact hmerge
  · intro hnone
    have hmerge := pyGet_pyDictMerge (default_params model_name) params hnd k
    rw [hnone] at hmerge
    exact hmerge

/-- C6 (witness): for the linear model, a caller-supplied `max_iter`
overrides the default and the untouched `random_state` keeps its
default. -/
theorem get_model_merges_defaults_witness :
    ("logistic_regression" ∈ MODELS)
    ∧ (([("max_iter", (500 : Int))].map Prod.fst).Nodup)
    ∧ (∃ spec, get_model "logistic_regression" [("max_iter", 500)] = Except.ok spec ∧
        spec.kind = "logistic_regression" ∧
        (∀ v, pyGet [("max_iter", (500 : Int))] "max_iter" = some v →
            pyGet spec.params "max_iter" = some v) ∧
        (pyGet [("max_iter", (500 : Int))] "max_iter" = none →
            pyGet spec.params "max_iter"
              = pyGet (default_params "logistic_regression") "max_iter"))
    ∧ (∃ spec, get_model "logistic_regression" [("max_iter", 500)] = Except.ok spec ∧
        spec.kind = "logistic_regression" ∧
        (∀ v, pyGet [("max_iter", (500 : Int))] "random_state" = some v →
            pyGet spec.params "random_state" = some v) ∧
        (pyGet [("max_iter", (500 : Int))] "random_state" = none →
            pyGet spec.params "random_state"
              = pyGet (default_params "logistic_regression") "random_state")) :=
  ⟨by decide, by decide,
   get_model_merges_defaults "logistic_regression" (by decide)
      [("max_iter", 500)] (by decide) "max_iter",
   get_model_merges_defaults "logistic_regression" (by decide)
      [("max_iter", 500)] (by decide) "random_state"⟩

/-- C7: saving a trained model and loading the written artifact restores
the very same fitted model and its training metadata, so the loaded
trainer predicts identically to the original on every input. -/
theorem save_then_load_roundtrip (s : TrainerState) (m : FittedModel)
    (hm : s.model = some m) (store : Store) (filename : Option String)
    (now : String) (s2 : TrainerState) :
    ∃ store' path,
      save_model s store filename now = Except.ok (store', path) ∧
      ∃ s3, load_model s2 store' path = Except.ok (m, s3) ∧
        s3.model = s.model ∧
        s3.training_info = s.training_info ∧
        ∀ X, s3.predict X = s.predict X := by
  unfold save_model
  rw [hm]
  refine ⟨_, _, rfl, ?_⟩
  unfold load_model
  rw [pyGet_pyUpsert, if_pos rfl]
  refine ⟨_, rfl, by simp [hm], rfl, ?_⟩
  intro X
  simp [TrainerState.predict, hm]

/-- C7 (witness): a concrete trained random-forest trainer, saved under a
given filename into an empty store and loaded into a fresh trainer. -/
theorem save_then_load_roundtrip_witness :
    ∃ store' path,
      save_model
          ⟨"artifacts",
           some ⟨"random_forest", [("n_estimators", 100), ("random_state", 42)],
             fun _ => 1, none⟩,
           some "random_forest", [("model_name", InfoVal.s "random_forest")]⟩
          [] (some "model_rf.pkl") "20240101" = Except.ok (store', path) ∧
      ∃ s3, load_model (TrainerState.init "artifacts") store' path
          = Except.ok (⟨"random_forest", [("n_estimators", 100), ("random_state", 42)],
              fun _ => 1, none⟩, s3) ∧
        s3.model
          = (⟨"artifacts",
              some ⟨"random_forest", [("n_estimators", 100), ("random_state", 42)],
                fun _ => 1, none⟩,
              some "random_forest",
              [("model_name", InfoVal.s "random_forest")]⟩ : TrainerState).model ∧
        s3.training_info = [("model_name", InfoVal.s "random_forest")] ∧
        ∀ X, s3.predict X
          = TrainerState.predict
              ⟨"artifacts",
               some ⟨"random_forest", [("n_estimators", 100), ("random_state", 42)],
                 fun _ => 1, none⟩,
               some "random_forest", [("model_name", InfoVal.s "random_forest")]⟩ X :=
  save_then_load_roundtrip
    ⟨"artifacts",
     some ⟨"random_forest", [("n_estimators", 100), ("random_state", 42)],
       fun _ => 1, none⟩,
     some "random_forest", [("model_name", InfoVal.s "random_forest")]⟩
    ⟨"random_forest", [("n_estimators", 100), ("random_state", 42)], fun _ => 1, none⟩
    rfl [] (some "model_rf.pkl") "20240101" (TrainerState.init "artifacts")

/-! ### Evaluation: the ROC-AUC policy of `calculate_metrics` -/

/-- C8: `calculate_metrics` always returns accuracy, the weighted
precision/recall/F1, the confusion matrix, the class count and the sample
count; the `roc_auc` key is present exactly when `y_true` carries two
distinct classes and a probability output was supplied, and in that case
it holds the guarded computation over the positive-class column — a
failed computation is recorded as `None` (the function is total: nothing
propagates). -/
theorem calculate_metrics_roc_policy (y_true y_pred : List Int)
    (y_proba : Option ProbaArr) :
    ((calculate_metrics y_true y_pred y_proba).accuracy
        = accuracyScore y_true y_pred)
    ∧ ((calculate_metrics y_true y_pred y_proba).precision
        = precisionWeighted y_true y_pred)
    ∧ ((calculate_metrics y_true y_pred y_proba).recall_
        = recallWeighted y_true y_pred)
    ∧ ((calculate_metrics y_true y_pred y_proba).f1_score
        = f1Weighted y_true y_pred)
    ∧ ((calculate_metrics y_true y_pred y_proba).confusion_matrix
        = confusionMatrix y_true y_pred)
    ∧ ((calculate_metrics y_true y_pred y_proba).n_classes
        = (uniqueSortedInt y_true).length)
    ∧ ((calculate_metrics y_true y_pred y_proba).samples_evaluated
        = y_true.length)
    ∧ ((calculate_metrics y_true y_pred y_proba).roc_auc ≠ none
        ↔ ((uniqueSortedInt y_true).length = 2 ∧ y_proba ≠ none))
    ∧ (∀ pa, y_proba = some pa → (uniqueSortedInt y_true).length = 2 →
        (calculate_metrics y_true y_pred y_proba).roc_auc
          = some (tryRocAuc y_true pa)) := by
  unfold calculate_metrics
  cases y_proba with
  | none => simp
  | some pa =>
      by_cases hb : (uniqueSortedInt y_true).length = 2 <;> simp [hb]

/-- C8 (witness): binary labels with a two-column probability matrix:
every base metric equation holds and the `roc_auc` key carries the
guarded computation. -/
theorem calculate_metrics_roc_policy_witness :
    ((calculate_metrics [0, 1] [0, 1]
        (some (ProbaArr.d2 [[1, 0], [0, 1]]))).accuracy
      = accuracyScore [0, 1] [0, 1])
    ∧ ((uniqueSortedInt [0, 1]).length = 2)
    ∧ ((calculate_metrics [0, 1] [0, 1]
          (some (ProbaArr.d2 [[1, 0], [0, 1]]))).roc_auc
        = some (tryRocAuc [0, 1] (ProbaArr.d2 [[1, 0], [0, 1]]))) :=
  ⟨(calculate_metrics_roc_policy [0, 1] [0, 1]
      (some (ProbaArr.d2 [[1, 0], [0, 1]]))).1,
   by decide,
   (calculate_metrics_roc_policy [0, 1] [0, 1]
      (some (ProbaArr.d2 [[1, 0], [0, 1]]))).2.2.2.2.2.2.2.2
      (ProbaArr.d2 [[1, 0], [0, 1]]) rfl (by decide)⟩

/-! ### Serving: the batch-prediction route -/

/-- The first statement of `predict_batch` reads the bare name
`model_trainer`; no scope binds it, so every call raises `NameError`
before anything else can happen — regardless of which models are loaded
and of the request body. -/
theorem predict_batch_raises_name_error (g : RoutesGlobals) (req : BatchRequest) :
    predict_batch g req
      = BatchOutcome.uncaughtException
          "NameError: name model_trainer is not defined" := rfl

/-- C1: even on the claim's happy path — the default `random_forest`
model loaded and a well-formed batch of two 54-element vectors — the
route does not return the predictions-plus-count response (nor a 503/400)
but raises `NameError`, which the framework surfaces as a 500. -/
theorem predict_batch_name_error_on_wellformed_batch :
    predict_batch
      ⟨[("random_forest",
         ⟨"artifacts",
          some ⟨"random_forest", [("n_estimators", 100), ("random_state", 42)],
            fun _ => 2, none⟩,
          some "random_forest", []⟩)]⟩
      ⟨[List.replicate 54 (0 : ℚ), List.replicate 54 (0 : ℚ)]⟩
      = BatchOutcome.uncaughtException
          "NameError: name model_trainer is not defined" :=
  predict_batch_raises_name_error _ _

end MLPipeline
